import Mathlib

/-!
Shallow embedding of the RiskAdvisor portfolio-risk engine.

Python floats are modelled as rationals (`ℚ`); quantities whose value the
code derives through `sqrt` live in `ℝ`.  A float operation that can produce
a non-finite value (inf/NaN) is modelled with `Option` (`none` = non-finite),
and a Python exception with `Except String`.

Sources embedded here:
* `src/app/utils/calculations.py` — `calculate_returns`, `calculate_volatility`,
  `calculate_hhi`, `calculate_correlation`, `calculate_risk_score`,
  `analyze_portfolio_risk`;
* `src/app/agents/scenario_agent.py` — `simulate_scenario`,
  `run_multiple_scenarios`, `get_scenario_recommendation`;
* `src/app/agents/stock_analyzer_agent.py` — `generate_stock_recommendation`.
-/

/-- Python's builtin `round` to an integer: round half to even (banker's
rounding), which is what `round(x)` and `round(x, n)` perform. -/
def roundHalfEven {α : Type} [LinearOrderedField α] [FloorRing α] (x : α) : ℤ :=
  if x - (⌊x⌋ : α) < 1 / 2 then ⌊x⌋
  else if (1 : α) / 2 < x - (⌊x⌋ : α) then ⌊x⌋ + 1
  else if ⌊x⌋ % 2 = 0 then ⌊x⌋ else ⌊x⌋ + 1

/-- Python's `round(x, ndigits)`: banker's rounding at `ndigits` decimal
places (the idealisation of float `round` over exact rationals/reals). -/
def pyRound {α : Type} [LinearOrderedField α] [FloorRing α] (x : α) (ndigits : ℕ) : α :=
  (roundHalfEven (x * 10 ^ ndigits) : ℤ) / 10 ^ ndigits

/-- Embedding of `calculate_returns` (calculations.py lines 9-24).
`returns = np.diff(prices) / prices[:-1]`: entry `i` is
`(p[i+1] - p[i]) / p[i]`.  When `p[i] = 0` the float division produces a
non-finite value (`inf` or `nan`, numpy emits only a warning); that entry is
modelled as `none`. -/
def calculate_returns (prices : List ℚ) : List (Option ℚ) :=
  if prices.length < 2 then []
  else (prices.zip prices.tail).map fun pr =>
    if pr.1 = 0 then none else some ((pr.2 - pr.1) / pr.1)

/-- `np.mean` over a list of finite floats (empty input never reaches it on
the paths embedded here). -/
def npMean (xs : List ℚ) : ℚ := xs.sum / xs.length

/-- Population variance, the quantity under the square root of `np.std`
(numpy's default `ddof = 0`, i.e. an `n` denominator). -/
def npVar (xs : List ℚ) : ℚ :=
  (xs.map fun x => (x - npMean xs) ^ 2).sum / xs.length

/-- `np.std` with its default `n` denominator. -/
noncomputable def npStd (xs : List ℚ) : ℝ := Real.sqrt (npVar xs)

/-- Embedding of `calculate_volatility` (calculations.py lines 27-47):
returns from `calculate_returns`; fewer than 2 returns ⇒ `0.0`; otherwise
`np.std(returns) * np.sqrt(252)`.  A non-finite entry in `returns` makes
`np.std` (and hence the result) NaN, modelled as `none`. -/
noncomputable def calculate_volatility (prices : List ℚ) : Option ℝ :=
  let returns := calculate_returns prices
  if returns.length < 2 then some 0
  else if returns.any fun r => r.isNone then none
  else some (npStd returns.reduceOption * Real.sqrt 252)

/-- Embedding of `calculate_hhi` (calculations.py lines 50-78): empty list ⇒
`0.0`; `total = sum(weights)`; if `total > 0` normalise and sum the squares,
otherwise `0.0`. -/
def calculate_hhi (weights : List ℚ) : ℚ :=
  if weights.isEmpty then 0
  else
    let total := weights.sum
    if 0 < total then ((weights.map fun w => w / total).map fun w => w ^ 2).sum
    else 0

/-- Embedding of `calculate_risk_score` (calculations.py lines 127-164):
`norm_volatility = min(volatility, 1.0)`;
`raw = w1*norm_volatility + w2*concentration + w3*correlation`;
`round(max(1.0, min(10.0, 1 + raw * 9)), 2)`.  Polymorphic so the same
definition serves the `ℚ`-level claims and the `ℝ`-valued analyzer. -/
def calculate_risk_score {α : Type} [LinearOrderedField α] [FloorRing α]
    (volatility concentration correlation : α)
    (weights : α × α × α := (1 / 2, 3 / 10, 1 / 5)) : α :=
  let norm_volatility := min volatility 1
  let raw_score :=
    weights.1 * norm_volatility + weights.2.1 * concentration + weights.2.2 * correlation
  pyRound (max 1 (min 10 (1 + raw_score * 9))) 2

/-- One entry of `np.corrcoef` after `np.nan_to_num(·, nan=0.0)`, in absolute
value: the Pearson correlation of two (already truncated) series.  A
non-finite entry, or a zero-variance series, propagates to a NaN correlation
which `nan_to_num` replaces by `0.0`. -/
noncomputable def pearsonAbs (xs ys : List (Option ℚ)) : ℝ :=
  if (xs.any fun r => r.isNone) || (ys.any fun r => r.isNone) then 0
  else
    let x := xs.reduceOption
    let y := ys.reduceOption
    if npVar x = 0 ∨ npVar y = 0 then 0
    else
      let cov := ((x.zip y).map fun p => (p.1 - npMean x) * (p.2 - npMean y)).sum / x.length
      |(cov : ℝ) / Real.sqrt ((npVar x * npVar y : ℚ))|

/-- All unordered pairs `(l[i], l[j])` with `i < j`: the strict upper
triangle the Python double loop walks. -/
def pairsUpper {α : Type} : List α → List (α × α)
  | [] => []
  | x :: xs => (xs.map fun y => (x, y)) ++ pairsUpper xs

/-- Embedding of `calculate_correlation` (calculations.py lines 81-124).
The Python checks `len(returns_matrix) < 2` on the raw list, then evaluates
`min(len(r) for r in returns_matrix if r)`: when every series is empty that
generator is empty and `min` raises `ValueError`, modelled as `.error`.
Otherwise: truncate the non-empty series to the common minimum length
(shorter than 2 ⇒ `0.0`), average `abs` over the strict upper triangle of
the NaN-cleaned correlation matrix. -/
noncomputable def calculate_correlation (returns_matrix : List (List (Option ℚ))) :
    Except String ℝ :=
  if returns_matrix.length < 2 then .ok 0
  else
    let nonempty := returns_matrix.filter fun r => !r.isEmpty
    match (nonempty.map List.length).min? with
    | none => .error ("ValueError: min() arg is an empty sequence")
    | some min_len =>
      if min_len < 2 then .ok 0
      else
        let trimmed := nonempty.map fun r => r.take min_len
        if trimmed.length < 2 then .ok 0
        else
          let upper_triangle := (pairsUpper trimmed).map fun p => pearsonAbs p.1 p.2
          if upper_triangle.isEmpty then .ok 0
          else .ok (upper_triangle.sum / upper_triangle.length)

/-- Embedding of Python's `str.upper()`: uppercase each character (the
symbols involved are plain ASCII tickers). -/
def pyUpper (s : String) : String := ⟨s.data.map Char.toUpper⟩

/-- Result dictionary of `simulate_scenario` (scenario_agent.py).  The
formatted `scenario` / `analysis` message strings are determined by
`scenario_type`, `symbol` and `change_amount`, which are kept as fields;
the free-text templates themselves are not re-modelled. -/
structure ScenarioResult where
  scenario_type : String
  symbol : String
  change_amount : ℚ
  current_value : ℚ
  new_value : ℚ
  current_risk_score : ℚ
  new_risk_score : ℚ
  risk_change : ℚ
  impact : String
deriving DecidableEq

/-- Embedding of `simulate_scenario` (scenario_agent.py lines 13-114).
In the `add_stock` branch the Python evaluates
`weight_change = change_amount / new_value` (unused afterwards); when
`new_value == 0` that float division raises `ZeroDivisionError`, modelled as
`.error`.  Branches: `add_stock` (delta −0.8 for SPY/VTI/QQQ, +0.6 for
TSLA/NVDA/COIN, +0.2 otherwise), `remove_stock` (+0.3 when the current value
is positive, else 0; reported value clamped at 0), `increase_position`
(+0.4), and a final `else` — reached by every other `scenario_type` string —
treated as decrease (−0.2, reported value clamped at 0).  Each new risk
score is `round(min(10, max(1, current + delta)), 2)`. -/
def simulate_scenario (scenario_type : String)
    (current_portfolio_value current_risk_score : ℚ)
    (stock_symbol : String) (change_amount : ℚ) : Except String ScenarioResult :=
  if scenario_type = "add_stock" then
    let new_value := current_portfolio_value + change_amount
    if new_value = 0 then .error ("ZeroDivisionError: float division by zero")
    else
      let risk_change : ℚ :=
        if pyUpper stock_symbol ∈ (["SPY", "VTI", "QQQ"] : List String) then -(4 / 5)
        else if pyUpper stock_symbol ∈ (["TSLA", "NVDA", "COIN"] : List String) then 3 / 5
        else 1 / 5
      .ok ⟨scenario_type, stock_symbol, change_amount, current_portfolio_value,
        new_value, current_risk_score,
        pyRound (min 10 (max 1 (current_risk_score + risk_change))) 2,
        pyRound risk_change 2,
        if risk_change < 0 then "POSITIVE"
        else if 3 / 10 < risk_change then "NEGATIVE" else "NEUTRAL"⟩
  else if scenario_type = "remove_stock" then
    let new_value := current_portfolio_value - change_amount
    let risk_change : ℚ := if 0 < current_portfolio_value then 3 / 10 else 0
    .ok ⟨scenario_type, stock_symbol, change_amount, current_portfolio_value,
      max 0 new_value, current_risk_score,
      pyRound (min 10 (max 1 (current_risk_score + risk_change))) 2,
      pyRound risk_change 2, "CAUTIONARY"⟩
  else if scenario_type = "increase_position" then
    let new_value := current_portfolio_value + change_amount
    let risk_change : ℚ := 2 / 5
    .ok ⟨scenario_type, stock_symbol, change_amount, current_portfolio_value,
      new_value, current_risk_score,
      pyRound (min 10 (max 1 (current_risk_score + risk_change))) 2,
      pyRound risk_change 2, "CAUTIONARY"⟩
  else
    let new_value := current_portfolio_value - change_amount
    let risk_change : ℚ := -(1 / 5)
    .ok ⟨scenario_type, stock_symbol, change_amount, current_portfolio_value,
      max 0 new_value, current_risk_score,
      pyRound (min 10 (max 1 (current_risk_score + risk_change))) 2,
      pyRound risk_change 2, "POSITIVE"⟩

/-- Embedding of `get_scenario_recommendation` (scenario_agent.py lines
170-173): Python's `min(scenarios, key=lambda x: x.get("new_risk_score", 10))`
keeps the first-seen minimum (it replaces only on a strictly smaller key);
on an empty list `min` would raise, modelled as `none`.  The recommendation
message names `best_scenario["scenario"]`, so the chosen result itself is
returned. -/
def get_scenario_recommendation (scenarios : List ScenarioResult) :
    Option ScenarioResult :=
  match scenarios with
  | [] => none
  | s :: rest =>
    some (rest.foldl (fun best x =>
      if x.new_risk_score < best.new_risk_score then x else best) s)

/-- Embedding of `run_multiple_scenarios` (scenario_agent.py lines 117-167):
three fixed scenarios — add $10,000 of SPY, increase the largest holding by
$5,000, decrease the largest holding by 30% of its value — and the
recommendation picked by `get_scenario_recommendation`. -/
def run_multiple_scenarios (portfolio_value risk_score : ℚ)
    (largest_holding : String) (largest_holding_value : ℚ) :
    Except String (List ScenarioResult × Option ScenarioResult) := do
  let s1 ← simulate_scenario ("add_stock") portfolio_value risk_score ("SPY") 10000
  let s2 ← simulate_scenario ("increase_position") portfolio_value risk_score
    largest_holding 5000
  let s3 ← simulate_scenario ("decrease_position") portfolio_value risk_score
    largest_holding (largest_holding_value * (3 / 10))
  pure ([s1, s2, s3], get_scenario_recommendation [s1, s2, s3])

/-- Result of `generate_stock_recommendation` (stock_analyzer_agent.py);
only the decision fields are modelled: `action` is a fixed template per
recommendation and `reasons` is free text. -/
structure StockRecommendation where
  symbol : String
  recommendation : String
  confidence : String
deriving DecidableEq

/-- Embedding of `generate_stock_recommendation` (stock_analyzer_agent.py
lines 145-234).  Sell signals: `risk_score >= 7`, `gain_loss_percent < -15`,
`portfolio_weight > 35`, `volatility > 45`.  Hold signals:
`gain_loss_percent > 20`, `risk_score <= 3`,
`volatility < 20 and portfolio_weight < 25`.  Decision: `>= 2` sell signals
⇒ SELL (HIGH confidence when `>= 3`, else MEDIUM); exactly 1 sell signal and
0 hold signals ⇒ REDUCE (MEDIUM); otherwise `>= 2` hold signals ⇒ HOLD
(HIGH); otherwise HOLD (LOW). -/
def generate_stock_recommendation (symbol : String)
    (risk_score gain_loss_percent portfolio_weight volatility : ℚ) :
    StockRecommendation :=
  let sym := pyUpper symbol
  let sell_signals : ℕ :=
    (if 7 ≤ risk_score then 1 else 0) + (if gain_loss_percent < -15 then 1 else 0)
    + (if 35 < portfolio_weight then 1 else 0) + (if 45 < volatility then 1 else 0)
  let hold_signals : ℕ :=
    (if 20 < gain_loss_percent then 1 else 0) + (if risk_score ≤ 3 then 1 else 0)
    + (if volatility < 20 ∧ portfolio_weight < 25 then 1 else 0)
  if 2 ≤ sell_signals then
    ⟨sym, "SELL", if 3 ≤ sell_signals then "HIGH" else "MEDIUM"⟩
  else if sell_signals = 1 ∧ hold_signals = 0 then ⟨sym, "REDUCE", "MEDIUM"⟩
  else if 2 ≤ hold_signals then ⟨sym, "HOLD", "HIGH"⟩
  else ⟨sym, "HOLD", "LOW"⟩

/-- One enriched holding, the input shape `analyze_portfolio_risk` reads
(`current_price`, `quantity`, `historical_prices`, with `symbol` echoed in
the per-holding report). -/
structure Holding where
  symbol : String
  current_price : ℚ
  quantity : ℚ
  historical_prices : List ℚ

/-- One entry of the `holdings_analysis` list in the analyzer's output. -/
structure HoldingAnalysis where
  symbol : String
  value : ℚ
  weight : ℚ
  individual_volatility : Option ℝ

/-- Output dictionary of `analyze_portfolio_risk`, flattened: the normal
branch nests `volatility`, `concentration` and `correlation_risk` inside
`risk_breakdown` and carries no `error` key, the empty branch has the three
metrics at top level, no `total_value`/`holdings_analysis`, and
`error = "Empty portfolio"`. -/
structure RiskAnalysis where
  risk_score : ℝ
  volatility : Option ℝ
  concentration : ℚ
  correlation_risk : ℝ
  total_value : Option ℚ
  holdings_analysis : List HoldingAnalysis
  error : Option String

/-- Float sum of a list whose entries may be NaN (`none`): one NaN entry
makes the whole sum NaN. -/
def optSum (l : List (Option ℝ)) : Option ℝ :=
  if l.any fun o => o.isNone then none else some l.reduceOption.sum

/-- The risk score the analyzer stores.  When the portfolio volatility is
NaN (`none`), `calculate_risk_score` receives NaN: `min(nan, 1.0)` keeps
`nan` (CPython's `min`/`max` keep the first argument unless the second
compares strictly smaller/larger, and every comparison with NaN is false),
so `scaled_score = nan`, then `min(10.0, nan) = 10.0`,
`max(1.0, 10.0) = 10.0`, `round(10.0, 2) = 10.0`. -/
noncomputable def analyzerRiskScore (portfolio_volatility : Option ℝ)
    (concentration : ℚ) (correlation_risk : ℝ) : ℝ :=
  match portfolio_volatility with
  | some v => calculate_risk_score v (concentration : ℝ) correlation_risk
  | none => 10

/-- Embedding of `analyze_portfolio_risk` (calculations.py lines 167-254).
Empty list ⇒ the degenerate dictionary.  Otherwise: per-holding
`value = current_price * quantity`; `weight = value / total_value` when
`total_value > 0`, else `0` (no division); weighted individual volatilities
and per-holding return series are collected only for holdings with a
non-empty price history (`all_returns` keeps only non-empty return lists);
`portfolio_volatility` is their sum (`0.0` when the list is empty);
concentration is the HHI of the weights; a `ValueError` escaping
`calculate_correlation` propagates. -/
noncomputable def analyze_portfolio_risk (enriched_holdings : List Holding) :
    Except String RiskAnalysis :=
  if enriched_holdings.isEmpty then
    .ok ⟨0, some 0, 0, 0, none, [], some ("Empty portfolio")⟩
  else
    let values := enriched_holdings.map fun h => h.current_price * h.quantity
    let total_value := values.sum
    let weights := values.map fun v => if 0 < total_value then v / total_value else 0
    let hw := enriched_holdings.zip weights
    let individual_volatilities : List (Option ℝ) :=
      (hw.filter fun p => !p.1.historical_prices.isEmpty).map fun p =>
        (calculate_volatility p.1.historical_prices).map fun v => v * (p.2 : ℝ)
    let all_returns :=
      (enriched_holdings.map fun h => calculate_returns h.historical_prices).filter
        fun r => !r.isEmpty
    let portfolio_volatility : Option ℝ :=
      if individual_volatilities.isEmpty then some 0
      else optSum individual_volatilities
    let concentration := calculate_hhi weights
    match calculate_correlation all_returns with
    | .error e => .error e
    | .ok correlation_risk =>
      .ok ⟨analyzerRiskScore portfolio_volatility concentration correlation_risk,
        portfolio_volatility.map fun v => pyRound v 4,
        pyRound concentration 4,
        pyRound correlation_risk 4,
        some (pyRound total_value 2),
        hw.map fun p =>
          ⟨p.1.symbol, pyRound (p.1.current_price * p.1.quantity) 2,
            pyRound (p.2 * 100) 2,
            (calculate_volatility p.1.historical_prices).map fun v => pyRound v 4⟩,
        none⟩

/-- Reference definition following the spec's words for the volatility
formula: the population standard deviation (`n` denominator) of a return
series, written directly over the reals.  Compared against the embedded
`calculate_volatility` in claim C4. -/
noncomputable def specPopStd (vals : List ℚ) : ℝ :=
  Real.sqrt ((vals.map fun x : ℚ => ((x : ℝ) - (vals.sum : ℝ) / vals.length) ^ 2).sum
    / vals.length)

/-- The `add_stock` risk delta of `simulate_scenario`: −0.8 for the index
funds SPY/VTI/QQQ, +0.6 for the high-volatility symbols TSLA/NVDA/COIN,
+0.2 otherwise (after upper-casing, as the code does). -/
def addStockDelta (sym : String) : ℚ :=
  if pyUpper sym ∈ (["SPY", "VTI", "QQQ"] : List String) then -(4 / 5)
  else if pyUpper sym ∈ (["TSLA", "NVDA", "COIN"] : List String) then 3 / 5
  else 1 / 5

/-! ### Helper lemmas about the rounding primitive -/

theorem floor_le_roundHalfEven {α : Type} [LinearOrderedField α] [FloorRing α] (x : α) :
    ⌊x⌋ ≤ roundHalfEven x := by
  unfold roundHalfEven; split_ifs <;> omega

theorem roundHalfEven_le_floor_add_one {α : Type} [LinearOrderedField α] [FloorRing α] (x : α) :
    roundHalfEven x ≤ ⌊x⌋ + 1 := by
  unfold roundHalfEven; split_ifs <;> omega

/-- Round-half-to-even is monotone. -/
theorem roundHalfEven_mono {α : Type} [LinearOrderedField α] [FloorRing α] {x y : α}
    (h : x ≤ y) : roundHalfEven x ≤ roundHalfEven y := by
  have hf : ⌊x⌋ ≤ ⌊y⌋ := Int.floor_le_floor h
  rcases eq_or_lt_of_le hf with heq | hlt
  · have hxy : x - (⌊x⌋ : α) ≤ y - (⌊x⌋ : α) := by linarith
    unfold roundHalfEven
    rw [← heq]
    split_ifs <;> first | omega | linarith
  · calc roundHalfEven x ≤ ⌊x⌋ + 1 := roundHalfEven_le_floor_add_one x
    _ ≤ ⌊y⌋ := by omega
    _ ≤ roundHalfEven y := floor_le_roundHalfEven y

/-- Python's `round(·, n)` is monotone. -/
theorem pyRound_mono {α : Type} [LinearOrderedField α] [FloorRing α] {x y : α}
    (n : ℕ) (h : x ≤ y) : pyRound x n ≤ pyRound y n := by
  unfold pyRound
  have h10 : (0:α) < 10 ^ n := by positivity
  gcongr
  exact_mod_cast roundHalfEven_mono (by gcongr)

/-- An exact integer rounds to itself. -/
theorem roundHalfEven_intCast {α : Type} [LinearOrderedField α] [FloorRing α] (k : ℤ) :
    roundHalfEven ((k : α)) = k := by
  unfold roundHalfEven
  rw [Int.floor_intCast]
  norm_num

/-- Evaluation rule for `pyRound` when `x * 10 ^ n` is an exact integer. -/
theorem pyRound_eval {α : Type} [LinearOrderedField α] [FloorRing α] (x : α) (n : ℕ)
    (k : ℤ) (h : x * 10 ^ n = (k : α)) : pyRound x n = (k : α) / 10 ^ n := by
  unfold pyRound
  rw [h, roundHalfEven_intCast]

/-- `roundHalfEven` commutes with the cast `ℚ → ℝ`. -/
theorem roundHalfEven_ratCast (x : ℚ) : roundHalfEven ((x : ℝ)) = roundHalfEven x := by
  unfold roundHalfEven
  have h1 : ((x:ℝ) - (⌊(x:ℝ)⌋ : ℝ) < 1 / 2) ↔ (x - (⌊x⌋ : ℚ) < 1 / 2) := by
    rw [Rat.floor_cast, show ((1:ℝ) / 2) = (((1 / 2 : ℚ)) : ℝ) by norm_num,
      show ((x:ℝ) - ((⌊x⌋ : ℤ) : ℝ)) = (((x - ⌊x⌋ : ℚ)) : ℝ) by push_cast; ring]
    exact Rat.cast_lt
  have h2 : ((1:ℝ) / 2 < (x:ℝ) - (⌊(x:ℝ)⌋ : ℝ)) ↔ ((1:ℚ) / 2 < x - (⌊x⌋ : ℚ)) := by
    rw [Rat.floor_cast, show ((1:ℝ) / 2) = (((1 / 2 : ℚ)) : ℝ) by norm_num,
      show ((x:ℝ) - ((⌊x⌋ : ℤ) : ℝ)) = (((x - ⌊x⌋ : ℚ)) : ℝ) by push_cast; ring]
    exact Rat.cast_lt
  rw [if_congr h1 (Rat.floor_cast x) rfl]
  rw [if_congr h2 (by rw [Rat.floor_cast]) rfl]
  rw [if_congr (by rw [Rat.floor_cast]) (Rat.floor_cast x) (by rw [Rat.floor_cast])]

/-- `pyRound` commutes with the cast `ℚ → ℝ`. -/
theorem pyRound_ratCast (x : ℚ) (n : ℕ) : pyRound ((x : ℝ)) n = ((pyRound x n : ℚ) : ℝ) := by
  unfold pyRound
  rw [show (x:ℝ) * 10 ^ n = ((x * 10 ^ n : ℚ) : ℝ) by push_cast; ring, roundHalfEven_ratCast]
  push_cast
  ring

/-- `calculate_risk_score` (default weights) commutes with the cast `ℚ → ℝ`. -/
theorem calculate_risk_score_ratCast (a b c : ℚ) :
    calculate_risk_score (a : ℝ) (b : ℝ) (c : ℝ) = ((calculate_risk_score a b c : ℚ) : ℝ) := by
  unfold calculate_risk_score
  rw [← pyRound_ratCast]
  push_cast
  ring_nf

/-! ### Helper lemmas about the embedded functions -/

/-- Scale invariance of the HHI under a positive factor. -/
theorem calculate_hhi_scale (w : List ℚ) (k : ℚ) (hk : 0 < k) :
    calculate_hhi (w.map fun x => k * x) = calculate_hhi w := by
  have sum_map : (w.map fun x => k * x).sum = k * w.sum := by
    induction w with
    | nil => simp
    | cons a l ih => simp [ih]; ring
  by_cases hw : w.isEmpty
  · have hw' : (w.map fun x => k * x).isEmpty := by
      rw [List.isEmpty_iff] at hw ⊢; simp [hw]
    simp only [calculate_hhi, if_pos hw, if_pos hw']
  · have hw' : ¬ (w.map fun x => k * x).isEmpty := by
      rw [List.isEmpty_iff] at hw ⊢; simp [hw]
    simp only [calculate_hhi, if_neg hw, if_neg hw', sum_map]
    by_cases ht : 0 < w.sum
    · rw [if_pos (mul_pos hk ht), if_pos ht]
      have hmaps : ((w.map fun x => k * x).map fun x => x / (k * w.sum))
          = w.map fun x => x / w.sum := by
        rw [List.map_map]
        apply List.map_congr_left
        intro x _
        simp only [Function.comp_apply]
        exact mul_div_mul_left x w.sum (ne_of_gt hk)
      rw [hmaps]
    · have ht' : ¬ 0 < k * w.sum := by
        have := not_lt.mp ht
        intro hc
        nlinarith
      rw [if_neg ht', if_neg ht]

/-- The HHI of a list with non-positive sum is zero. -/
theorem calculate_hhi_nonpos (w : List ℚ) (hs : w.sum ≤ 0) : calculate_hhi w = 0 := by
  by_cases hw : w.isEmpty
  · simp only [calculate_hhi, if_pos hw]
  · simp only [calculate_hhi, if_neg hw, if_neg (not_lt.mpr hs)]

/-- Cast of the sum of squared deviations from `ℚ` to `ℝ`. -/
theorem cast_sum_sq (c : ℚ) (vals : List ℚ) :
    (((vals.map fun x => (x - c) ^ 2).sum : ℚ) : ℝ)
      = (vals.map fun x : ℚ => ((x : ℝ) - (c : ℝ)) ^ 2).sum := by
  induction vals with
  | nil => simp
  | cons a l ih =>
    simp only [List.map_cons, List.sum_cons, Rat.cast_add, ih]
    push_cast
    ring

/-- The embedded `np.std` agrees with the spec's population standard
deviation formula. -/
theorem npStd_eq_specPopStd (vals : List ℚ) : npStd vals = specPopStd vals := by
  unfold npStd specPopStd npVar
  congr 1
  rw [Rat.cast_div, cast_sum_sq (npMean vals) vals]
  have hc : ((npMean vals : ℚ) : ℝ) = (vals.sum : ℝ) / (vals.length : ℝ) := by
    unfold npMean; push_cast; ring
  simp only [hc]
  push_cast
  rfl

/-- `round(-0.2, 2)` is exact. -/
theorem pyRound_neg_fifth : pyRound (-(1 / 5) : ℚ) 2 = -(1 / 5) := by
  rw [pyRound_eval (-(1 / 5) : ℚ) 2 (-20) (by norm_num)]; norm_num

/-- Closed form of the `add_stock` branch away from the division by zero. -/
theorem simulate_add_stock_eq (pv cr : ℚ) (sym : String) (ch : ℚ) (h : pv + ch ≠ 0) :
    simulate_scenario ("add_stock") pv cr sym ch =
      .ok ⟨"add_stock", sym, ch, pv, pv + ch, cr,
        pyRound (min 10 (max 1 (cr + addStockDelta sym))) 2,
        pyRound (addStockDelta sym) 2,
        if addStockDelta sym < 0 then "POSITIVE"
        else if 3 / 10 < addStockDelta sym then "NEGATIVE" else "NEUTRAL"⟩ := by
  unfold simulate_scenario addStockDelta
  rw [if_pos rfl, if_neg h]

/-- Closed form of the `increase_position` branch. -/
theorem simulate_increase_eq (pv cr : ℚ) (sym : String) (ch : ℚ) :
    simulate_scenario ("increase_position") pv cr sym ch =
      .ok ⟨"increase_position", sym, ch, pv, pv + ch, cr,
        pyRound (min 10 (max 1 (cr + 2 / 5))) 2, pyRound (2 / 5) 2, "CAUTIONARY"⟩ := by
  unfold simulate_scenario
  rw [if_neg (by decide), if_neg (by decide), if_pos rfl]

/-- Closed form of the catch-all decrease branch. -/
theorem simulate_decrease_eq (st : String) (pv cr : ℚ) (sym : String) (ch : ℚ)
    (h1 : st ≠ "add_stock") (h2 : st ≠ "remove_stock") (h3 : st ≠ "increase_position") :
    simulate_scenario st pv cr sym ch =
      .ok ⟨st, sym, ch, pv, max 0 (pv - ch), cr,
        pyRound (min 10 (max 1 (cr - 1 / 5))) 2, -(1 / 5), "POSITIVE"⟩ := by
  have harith : (cr + -(1 / 5) : ℚ) = cr - 1 / 5 := by ring
  simp only [simulate_scenario, if_neg h1, if_neg h2, if_neg h3, harith, pyRound_neg_fifth]

/-! ### The claims -/

/-- C2: the claim says `calculate_correlation` terminates normally for every
input, returning `0.0` when fewer than 2 non-empty series remain.  The code
instead raises `ValueError` when the matrix has at least two series and all
of them are empty: `min(len(r) for r in returns_matrix if r)` runs on an
empty generator before any empties are dropped.  This theorem evaluates the
embedded code at the failing input `[[], []]`. -/
theorem calculate_correlation_all_empty_raises :
    calculate_correlation [[], []] = .error ("ValueError: min() arg is an empty sequence") := rfl

/-- C3: the claim (and the spec) require the zero-price division to be
guarded, the return skipped or treated as zero.  The code divides
unconditionally: on prices `[0, 1]` the single return is `(1 - 0) / 0`, a
non-finite float (modelled `none`), not skipped and not zero. -/
theorem calculate_returns_zero_price_unguarded :
    calculate_returns [0, 1] = [none] := rfl

/-- C4: `calculate_volatility` returns exactly `0.0` whenever the derived
return series has fewer than 2 elements (in particular for every price
series of length < 2), and otherwise returns the population standard
deviation (`n` denominator) of the returns times `√252` — stated against
the independent spec-side formula `specPopStd`; when the return series
contains a non-finite value both sides are NaN (`none`). -/
theorem calculate_volatility_short_and_formula (prices : List ℚ) :
    (prices.length < 2 → calculate_volatility prices = some 0)
    ∧ ((calculate_returns prices).length < 2 → calculate_volatility prices = some 0)
    ∧ (2 ≤ (calculate_returns prices).length →
        ¬ ((calculate_returns prices).any fun r => r.isNone) →
        calculate_volatility prices =
          some (specPopStd (calculate_returns prices).reduceOption * Real.sqrt 252))
    ∧ (2 ≤ (calculate_returns prices).length →
        ((calculate_returns prices).any fun r => r.isNone) →
        calculate_volatility prices = none) := by
  refine ⟨fun h => ?_, fun h => ?_, fun h hn => ?_, fun h hn => ?_⟩
  · have hretn : calculate_returns prices = [] := by
      unfold calculate_returns; rw [if_pos h]
    simp [calculate_volatility, hretn]
  · simp only [calculate_volatility, if_pos h]
  · simp only [calculate_volatility,
      if_neg (by omega : ¬ (calculate_returns prices).length < 2),
      if_neg hn, npStd_eq_specPopStd]
  · simp only [calculate_volatility,
      if_neg (by omega : ¬ (calculate_returns prices).length < 2), if_pos hn]

/-- Witness for C4 on the concrete price series `[1, 2, 4]`. -/
theorem calculate_volatility_short_and_formula_witness :
    calculate_volatility [1, 2, 4] =
      some (specPopStd (calculate_returns [1, 2, 4]).reduceOption * Real.sqrt 252) :=
  (calculate_volatility_short_and_formula [1, 2, 4]).2.2.1
    (by norm_num [calculate_returns]) (by norm_num [calculate_returns])

/-- C5: the HHI is invariant under uniform positive scaling of the weights,
and returns `0.0` for an empty list or a list with non-positive sum. -/
theorem calculate_hhi_scale_invariant :
    (∀ (w : List ℚ) (k : ℚ), 0 < k →
      calculate_hhi (w.map fun x => k * x) = calculate_hhi w)
    ∧ (∀ w : List ℚ, w = [] ∨ w.sum ≤ 0 → calculate_hhi w = 0) := by
  refine ⟨calculate_hhi_scale, fun w hw => ?_⟩
  rcases hw with rfl | hs
  · exact calculate_hhi_nonpos [] (by simp)
  · exact calculate_hhi_nonpos w hs

/-- Witness for C5: scaling `[1, 3]` by `2`, and a non-positive list. -/
theorem calculate_hhi_scale_invariant_witness :
    calculate_hhi ([1, 3].map fun x => 2 * x) = calculate_hhi [1, 3]
    ∧ calculate_hhi [-1] = 0 :=
  ⟨calculate_hhi_scale_invariant.1 [1, 3] 2 (by norm_num),
   calculate_hhi_scale_invariant.2 [-1] (Or.inr (by norm_num))⟩

/-- C6: with the default weight tuple `(0.5, 0.3, 0.2)`,
`calculate_risk_score` is monotonically non-decreasing in each of
volatility, concentration and correlation with the other two fixed. -/
theorem calculate_risk_score_monotone :
    (∀ v v' c r : ℚ, v ≤ v' →
      calculate_risk_score v c r ≤ calculate_risk_score v' c r)
    ∧ (∀ v c c' r : ℚ, c ≤ c' →
      calculate_risk_score v c r ≤ calculate_risk_score v c' r)
    ∧ (∀ v c r r' : ℚ, r ≤ r' →
      calculate_risk_score v c r ≤ calculate_risk_score v c r') := by
  refine ⟨fun v v' c r h => ?_, fun v c c' r h => ?_, fun v c r r' h => ?_⟩ <;>
    · simp only [calculate_risk_score]
      apply pyRound_mono
      gcongr

/-- Witness for C6 at concrete inputs in each argument position. -/
theorem calculate_risk_score_monotone_witness :
    calculate_risk_score (1/4 : ℚ) (1/2) (1/2) ≤ calculate_risk_score (3/4 : ℚ) (1/2) (1/2)
    ∧ calculate_risk_score (1/4 : ℚ) (1/4) (1/2) ≤ calculate_risk_score (1/4 : ℚ) (3/4) (1/2)
    ∧ calculate_risk_score (1/4 : ℚ) (1/2) (1/4) ≤ calculate_risk_score (1/4 : ℚ) (1/2) (3/4) :=
  ⟨calculate_risk_score_monotone.1 (1/4) (3/4) (1/2) (1/2) (by norm_num),
   calculate_risk_score_monotone.2.1 (1/4) (1/4) (3/4) (1/2) (by norm_num),
   calculate_risk_score_monotone.2.2 (1/4) (1/2) (1/4) (3/4) (by norm_num)⟩

/-- C7 (amended): for every add-stock scenario whose projected new value
`current_portfolio_value + change_amount` is non-zero (otherwise the code
raises `ZeroDivisionError`, see the counterexample), the result's
`new_value` is `current + change` and `new_risk_score` is
`round(clamp(current_risk_score + delta, 1, 10), 2)` with `delta` the
symbol classification of `addStockDelta`; in particular $100,000 at risk
5.0 plus $10,000 of SPY gives value 110,000 and risk 4.2, and of TSLA gives
risk 5.6. -/
theorem simulate_add_stock_spec :
    (∀ (pv cr : ℚ) (sym : String) (ch : ℚ), pv + ch ≠ 0 →
      ∃ res, simulate_scenario ("add_stock") pv cr sym ch = .ok res
        ∧ res.new_value = pv + ch
        ∧ res.new_risk_score = pyRound (min 10 (max 1 (cr + addStockDelta sym))) 2)
    ∧ (simulate_scenario ("add_stock") 100000 5 ("SPY") 10000).map
        (fun r => (r.new_value, r.new_risk_score)) = .ok (110000, 21 / 5)
    ∧ (simulate_scenario ("add_stock") 100000 5 ("TSLA") 10000).map
        (fun r => r.new_risk_score) = .ok (28 / 5) := by
  refine ⟨fun pv cr sym ch h => ⟨_, simulate_add_stock_eq pv cr sym ch h, rfl, rfl⟩, ?_, ?_⟩
  · rw [simulate_add_stock_eq 100000 5 "SPY" 10000 (by norm_num)]
    simp only [Except.map]
    have hd : addStockDelta "SPY" = -(4/5) := by
      unfold addStockDelta; rw [if_pos (by decide)]
    rw [hd, show ((5:ℚ) + -(4/5)) = 21/5 by norm_num,
      show min (10:ℚ) (max 1 (21/5)) = 21/5 by norm_num,
      pyRound_eval (21/5 : ℚ) 2 420 (by norm_num)]
    norm_num
  · rw [simulate_add_stock_eq 100000 5 "TSLA" 10000 (by norm_num)]
    simp only [Except.map]
    have hd : addStockDelta "TSLA" = 3/5 := by
      unfold addStockDelta; rw [if_neg (by decide), if_pos (by decide)]
    rw [hd, show ((5:ℚ) + 3/5) = 28/5 by norm_num,
      show min (10:ℚ) (max 1 (28/5)) = 28/5 by norm_num,
      pyRound_eval (28/5 : ℚ) 2 560 (by norm_num)]
    norm_num

/-- Witness for C7's universally quantified part. -/
theorem simulate_add_stock_spec_witness :
    ∃ res, simulate_scenario ("add_stock") 200 3 ("MSFT") 50 = .ok res
      ∧ res.new_value = 200 + 50
      ∧ res.new_risk_score = pyRound (min 10 (max 1 (3 + addStockDelta "MSFT"))) 2 :=
  simulate_add_stock_spec.1 200 3 "MSFT" 50 (by norm_num)

/-- Counterexample to C7 as stated: an add-stock scenario whose new value
is zero raises `ZeroDivisionError` (the unused `weight_change` division) and
produces no result at all. -/
theorem simulate_add_stock_zero_division :
    simulate_scenario ("add_stock") 0 5 ("SPY") 0 =
      .error ("ZeroDivisionError: float division by zero") := by
  unfold simulate_scenario
  rw [if_pos rfl, if_pos (by norm_num)]

/-- C9: the recommendation follows the sell/hold signal counts exactly as
the claim states, and the concrete holding (risk 8, loss −20%, weight 40%,
volatility 50%) triggers all four sell signals, giving SELL with HIGH
confidence. -/
theorem generate_stock_recommendation_spec :
    (∀ (sym : String) (rs gl w v : ℚ),
      (2 ≤ (if 7 ≤ rs then 1 else 0) + (if gl < -15 then 1 else 0)
        + (if 35 < w then 1 else 0) + (if 45 < v then 1 else 0) →
        generate_stock_recommendation sym rs gl w v =
          ⟨pyUpper sym, "SELL",
            if 3 ≤ (if 7 ≤ rs then 1 else 0) + (if gl < -15 then 1 else 0)
              + (if 35 < w then 1 else 0) + (if 45 < v then 1 else 0) then "HIGH"
            else "MEDIUM"⟩)
      ∧ ((if 7 ≤ rs then 1 else 0) + (if gl < -15 then 1 else 0)
          + (if 35 < w then 1 else 0) + (if 45 < v then 1 else 0) = 1 →
         (if 20 < gl then 1 else 0) + (if rs ≤ 3 then 1 else 0)
          + (if v < 20 ∧ w < 25 then 1 else 0) = 0 →
        generate_stock_recommendation sym rs gl w v = ⟨pyUpper sym, "REDUCE", "MEDIUM"⟩)
      ∧ ((if 7 ≤ rs then 1 else 0) + (if gl < -15 then 1 else 0)
          + (if 35 < w then 1 else 0) + (if 45 < v then 1 else 0) ≤ 1 →
         2 ≤ (if 20 < gl then 1 else 0) + (if rs ≤ 3 then 1 else 0)
          + (if v < 20 ∧ w < 25 then 1 else 0) →
        generate_stock_recommendation sym rs gl w v = ⟨pyUpper sym, "HOLD", "HIGH"⟩)
      ∧ ((if 7 ≤ rs then 1 else 0) + (if gl < -15 then 1 else 0)
          + (if 35 < w then 1 else 0) + (if 45 < v then 1 else 0) ≤ 1 →
         (if 20 < gl then 1 else 0) + (if rs ≤ 3 then 1 else 0)
          + (if v < 20 ∧ w < 25 then 1 else 0) < 2 →
         ¬((if 7 ≤ rs then 1 else 0) + (if gl < -15 then 1 else 0)
            + (if 35 < w then 1 else 0) + (if 45 < v then 1 else 0) = 1 ∧
           (if 20 < gl then 1 else 0) + (if rs ≤ 3 then 1 else 0)
            + (if v < 20 ∧ w < 25 then 1 else 0) = 0) →
        generate_stock_recommendation sym rs gl w v = ⟨pyUpper sym, "HOLD", "LOW"⟩))
    ∧ generate_stock_recommendation ("X") 8 (-20) 40 50 = ⟨"X", "SELL", "HIGH"⟩ := by
  constructor
  · intro sym rs gl w v
    refine ⟨fun h2 => ?_, fun h1 h0 => ?_, fun hle hh => ?_, fun hle hh hr => ?_⟩
    · simp only [generate_stock_recommendation]
      rw [if_pos h2]
    · simp only [generate_stock_recommendation]
      rw [if_neg (by omega), if_pos ⟨h1, h0⟩]
    · simp only [generate_stock_recommendation]
      rw [if_neg (by omega), if_neg (by omega), if_pos hh]
    · simp only [generate_stock_recommendation]
      rw [if_neg (by omega), if_neg hr, if_neg (by omega)]
  · simp only [generate_stock_recommendation]
    norm_num
    decide

/-- Witness for C9: two sell signals and no hold signals give SELL with
MEDIUM confidence. -/
theorem generate_stock_recommendation_spec_witness :
    generate_stock_recommendation ("Z") 8 (-20) 0 0 = ⟨"Z", "SELL", "MEDIUM"⟩ := by
  have h := (generate_stock_recommendation_spec.1 "Z" 8 (-20) 0 0).1 (by norm_num)
  rw [h]
  norm_num
  decide

/-- C10: every `scenario_type` other than the three named ones takes the
decrease branch: risk delta −0.2, new risk `round(clamp(cr − 0.2, 1, 10), 2)`,
and reported new value `max(0, value − change)`, which is never negative. -/
theorem simulate_scenario_fallback_branch (scenario_type : String) (pv cr : ℚ)
    (sym : String) (ch : ℚ)
    (h1 : scenario_type ≠ "add_stock") (h2 : scenario_type ≠ "remove_stock")
    (h3 : scenario_type ≠ "increase_position") :
    simulate_scenario scenario_type pv cr sym ch =
      .ok ⟨scenario_type, sym, ch, pv, max 0 (pv - ch), cr,
        pyRound (min 10 (max 1 (cr - 1 / 5))) 2, -(1 / 5), "POSITIVE"⟩
    ∧ 0 ≤ max (0 : ℚ) (pv - ch) :=
  ⟨simulate_decrease_eq scenario_type pv cr sym ch h1 h2 h3, le_max_left 0 _⟩

/-- Witness for C10 at the unrecognized scenario type "rebalance". -/
theorem simulate_scenario_fallback_branch_witness :
    simulate_scenario ("rebalance") 100 5 ("AAPL") 30 =
      .ok ⟨"rebalance", "AAPL", 30, 100, max 0 (100 - 30), 5,
        pyRound (min 10 (max 1 (5 - 1 / 5))) 2, -(1 / 5), "POSITIVE"⟩
    ∧ 0 ≤ max (0 : ℚ) (100 - 30) :=
  simulate_scenario_fallback_branch "rebalance" 100 5 "AAPL" 30
    (by decide) (by decide) (by decide)

/-- Python's `min(·, key=new_risk_score)` over a three-element list in
closed form: the earliest scenario attaining the minimal score. -/
theorem foldl_minBy_three (a b c : ScenarioResult) :
    [b, c].foldl (fun best x =>
        if x.new_risk_score < best.new_risk_score then x else best) a =
      if a.new_risk_score ≤ b.new_risk_score ∧ a.new_risk_score ≤ c.new_risk_score then a
      else if b.new_risk_score ≤ c.new_risk_score then b
      else c := by
  simp only [List.foldl]
  rcases lt_or_le b.new_risk_score a.new_risk_score with h1 | h1
  · rw [if_pos h1]
    rcases lt_or_le c.new_risk_score b.new_risk_score with h2 | h2
    · rw [if_pos h2, if_neg (fun hc => absurd hc.1 (not_le.mpr h1)),
        if_neg (not_le.mpr h2)]
    · rw [if_neg (not_lt.mpr h2), if_neg (fun hc => absurd hc.1 (not_le.mpr h1)),
        if_pos h2]
  · rw [if_neg (not_lt.mpr h1)]
    rcases lt_or_le c.new_risk_score a.new_risk_score with h2 | h2
    · rw [if_pos h2, if_neg (fun hc => absurd hc.2 (not_le.mpr h2)),
        if_neg (not_le.mpr (lt_of_lt_of_le h2 h1))]
    · rw [if_neg (not_lt.mpr h2), if_pos ⟨h1, h2⟩]

/-- C8 (amended): for every portfolio whose value is not −10,000 (at
exactly −10,000 the add-SPY scenario's new value is zero and the code
raises `ZeroDivisionError`, see the counterexample), `run_multiple_scenarios`
produces exactly the three canonical scenarios in order — add $10,000 of
SPY, increase the largest holding by $5,000, decrease the largest holding by
30% of its value — and the recommendation is the scenario with the lowest
`new_risk_score`, ties resolved in favour of the earliest. -/
theorem run_multiple_scenarios_spec :
    ∀ (pv rs : ℚ) (lh : String) (lhv : ℚ), pv + 10000 ≠ 0 →
      ∃ s1 s2 s3, run_multiple_scenarios pv rs lh lhv =
        .ok ([s1, s2, s3],
          some (if s1.new_risk_score ≤ s2.new_risk_score
                    ∧ s1.new_risk_score ≤ s3.new_risk_score then s1
                else if s2.new_risk_score ≤ s3.new_risk_score then s2
                else s3))
        ∧ s1.scenario_type = "add_stock" ∧ s1.symbol = "SPY" ∧ s1.change_amount = 10000
        ∧ s2.scenario_type = "increase_position" ∧ s2.symbol = lh ∧ s2.change_amount = 5000
        ∧ s3.scenario_type = "decrease_position" ∧ s3.symbol = lh
        ∧ s3.change_amount = lhv * (3 / 10) := by
  intro pv rs lh lhv h
  refine ⟨⟨"add_stock", "SPY", 10000, pv, pv + 10000, rs,
      pyRound (min 10 (max 1 (rs + addStockDelta "SPY"))) 2,
      pyRound (addStockDelta "SPY") 2,
      if addStockDelta "SPY" < 0 then "POSITIVE"
      else if 3 / 10 < addStockDelta "SPY" then "NEGATIVE" else "NEUTRAL"⟩,
    ⟨"increase_position", lh, 5000, pv, pv + 5000, rs,
      pyRound (min 10 (max 1 (rs + 2 / 5))) 2, pyRound (2 / 5) 2, "CAUTIONARY"⟩,
    ⟨"decrease_position", lh, lhv * (3 / 10), pv, max 0 (pv - lhv * (3 / 10)), rs,
      pyRound (min 10 (max 1 (rs - 1 / 5))) 2, -(1 / 5), "POSITIVE"⟩,
    ?_, rfl, rfl, rfl, rfl, rfl, rfl, rfl, rfl, rfl⟩
  unfold run_multiple_scenarios
  rw [simulate_add_stock_eq pv rs "SPY" 10000 h, simulate_increase_eq pv rs lh 5000,
    simulate_decrease_eq "decrease_position" pv rs lh (lhv * (3 / 10))
      (by decide) (by decide) (by decide)]
  simp only [bind, Except.bind, pure, Except.pure, get_scenario_recommendation,
    foldl_minBy_three]

/-- Witness for C8 on a concrete portfolio. -/
theorem run_multiple_scenarios_spec_witness :
    ∃ s1 s2 s3, run_multiple_scenarios 0 5 ("AAPL") 1000 =
        .ok ([s1, s2, s3],
          some (if s1.new_risk_score ≤ s2.new_risk_score
                    ∧ s1.new_risk_score ≤ s3.new_risk_score then s1
                else if s2.new_risk_score ≤ s3.new_risk_score then s2
                else s3))
        ∧ s1.scenario_type = "add_stock" ∧ s1.symbol = "SPY" ∧ s1.change_amount = 10000
        ∧ s2.scenario_type = "increase_position" ∧ s2.symbol = "AAPL"
        ∧ s2.change_amount = 5000
        ∧ s3.scenario_type = "decrease_position" ∧ s3.symbol = "AAPL"
        ∧ s3.change_amount = 1000 * (3 / 10) :=
  run_multiple_scenarios_spec 0 5 "AAPL" 1000 (by norm_num)

/-- Counterexample to C8 as stated over every portfolio value: at exactly
−10,000 the add-SPY scenario divides by zero and the whole run raises. -/
theorem run_multiple_scenarios_zero_division :
    run_multiple_scenarios (-10000) 5 ("AAPL") 1000 =
      .error ("ZeroDivisionError: float division by zero") := by
  unfold run_multiple_scenarios
  rw [show simulate_scenario ("add_stock") (-10000) 5 ("SPY") 10000 =
      .error ("ZeroDivisionError: float division by zero") from by
    unfold simulate_scenario; rw [if_pos rfl, if_pos (by norm_num)]]
  rfl

/-- `round(0, n)` is zero at every precision. -/
theorem pyRound_zero {α : Type} [LinearOrderedField α] [FloorRing α] (n : ℕ) :
    pyRound (0 : α) n = 0 := by
  rw [pyRound_eval 0 n 0 (by norm_num)]
  norm_num

/-- The risk score of an all-zero breakdown is the scale's floor `1.0`. -/
theorem calculate_risk_score_zero_rat : calculate_risk_score (0:ℚ) 0 0 = 1 := by
  simp only [calculate_risk_score]
  norm_num
  rw [pyRound_eval (1:ℚ) 2 100 (by norm_num)]
  norm_num

/-- Real-valued version of `calculate_risk_score_zero_rat`. -/
theorem calculate_risk_score_zero_real : calculate_risk_score (0:ℝ) 0 0 = 1 := by
  have h := calculate_risk_score_ratCast 0 0 0
  simp only [Rat.cast_zero] at h
  rw [h, calculate_risk_score_zero_rat]
  norm_num

/-- `calculate_correlation` cannot raise when every series it receives is
non-empty — the situation on every call from `analyze_portfolio_risk`. -/
theorem calculate_correlation_ok (m : List (List (Option ℚ))) (hm : ∀ r ∈ m, r ≠ []) :
    ∃ q, calculate_correlation m = .ok q := by
  cases hc : calculate_correlation m with
  | ok q => exact ⟨q, rfl⟩
  | error e =>
    exfalso
    revert hc
    unfold calculate_correlation
    by_cases h2 : m.length < 2
    · rw [if_pos h2]
      simp
    · rw [if_neg h2]
      have hfilter : (m.filter fun r => !r.isEmpty) = m := by
        apply List.filter_eq_self.mpr
        intro a ha
        simp [List.isEmpty_iff, hm a ha]
      simp only [hfilter]
      obtain ⟨v, hv⟩ : ∃ v, (m.map List.length).min? = some v := by
        have hne : m.map List.length ≠ [] := by
          intro hc2
          rw [List.map_eq_nil_iff] at hc2
          subst hc2
          simp at h2
        cases hmm : (m.map List.length).min? with
        | none => exact absurd (List.min?_eq_none_iff.mp hmm) hne
        | some v => exact ⟨v, rfl⟩
      simp only [hv]
      split_ifs <;> simp

/-- C1 (amended): on an empty holdings list the analyzer returns the exact
degenerate dictionary (risk 0, all metrics 0, "Empty portfolio" marker) and
raises nothing; on a non-empty list whose total value is 0 it also raises
nothing — every weight is set to 0 instead of dividing — and the reported
concentration and total value are 0, but the result carries no
empty-portfolio marker and its risk score comes from the normal scorer
(so it is 1.0, not 0, in the counterexample). -/
theorem analyze_portfolio_risk_empty_or_zero_total (hs : List Holding) :
    (hs = [] → analyze_portfolio_risk hs =
      .ok ⟨0, some 0, 0, 0, none, [], some ("Empty portfolio")⟩)
    ∧ (hs ≠ [] → (hs.map fun h => h.current_price * h.quantity).sum = 0 →
      ∃ r, analyze_portfolio_risk hs = .ok r ∧ r.error = none ∧ r.concentration = 0
        ∧ r.total_value = some 0) := by
  constructor
  · rintro rfl
    rfl
  · intro hne hz
    have hie : ¬ hs.isEmpty := by simpa [List.isEmpty_iff] using hne
    have hret : ∀ r ∈ (hs.map fun h => calculate_returns h.historical_prices).filter
        (fun r => !r.isEmpty), r ≠ [] := by
      intro r hr
      have h2 := (List.mem_filter.mp hr).2
      simpa [List.isEmpty_iff] using h2
    obtain ⟨q, hq⟩ := calculate_correlation_ok _ hret
    have hzero : ∀ l : List ℚ, (l.map fun v => (0:ℚ)).sum = 0 := by
      intro l
      induction l with
      | nil => simp
      | cons a t ih => simp [ih]
    have hhh : calculate_hhi ((hs.map fun h => h.current_price * h.quantity).map
        fun v => (0:ℚ)) = 0 := calculate_hhi_nonpos _ (le_of_eq (hzero _))
    simp only [analyze_portfolio_risk, if_neg hie, hz, lt_self_iff_false, if_false,
      hhh, hq, pyRound_zero]
    exact ⟨_, rfl, rfl, rfl, rfl⟩

/-- Witness for C1 on a concrete zero-value, non-empty portfolio. -/
theorem analyze_portfolio_risk_empty_or_zero_total_witness :
    ∃ r, analyze_portfolio_risk [⟨"Z", 0, 2, []⟩] = .ok r ∧ r.error = none
      ∧ r.concentration = 0 ∧ r.total_value = some 0 :=
  (analyze_portfolio_risk_empty_or_zero_total [⟨"Z", 0, 2, []⟩]).2
    (List.cons_ne_nil _ _) (by simp)

/-- Counterexample to C1 as stated: a non-empty portfolio with total value 0
is not given the degenerate result — its risk score is 1.0, not 0, and there
is no empty-portfolio marker. -/
theorem analyze_portfolio_risk_zero_total_not_degenerate :
    (analyze_portfolio_risk [⟨"ZERO", 0, 1, []⟩]).map RiskAnalysis.risk_score = .ok 1
    ∧ (analyze_portfolio_risk [⟨"ZERO", 0, 1, []⟩]).map RiskAnalysis.error = .ok none
    ∧ (1 : ℝ) ≠ 0 := by
  have key : analyze_portfolio_risk [⟨"ZERO", 0, 1, []⟩] =
      .ok ⟨1, some 0, 0, 0, some 0, [⟨"ZERO", 0, 0, some 0⟩], none⟩ := by
    simp only [analyze_portfolio_risk]
    norm_num [calculate_hhi, calculate_volatility, calculate_returns,
      calculate_correlation, analyzerRiskScore, pyRound_zero, calculate_risk_score_zero_real]
  exact ⟨by rw [key]; rfl, by rw [key]; rfl, by norm_num⟩
